import Mathlib

/-!
Shallow embedding of the validation pipeline of the vscode-drupal-check
language server: the checker class (src/server/src/checker.ts) and the
orchestrator (`validateSingle` / `validateMany` in the server module).

External platform facilities (the URI-to-path conversion, the Windows path
normalisation, `fs.realpathSync`, and `JSON.parse`) are abstracted as oracle
functions collected in `JsEnv`; the spawned process is abstracted as its
observed `SpawnResult` (exit status, stdout, stderr), since the external
checker tool is a black box.  Everything else is translated directly from
the TypeScript source.
-/

set_option autoImplicit false

/-- Per-document checker settings, from the `CheckerSettings` interface of
the server's settings module (`enable`, `executablePath : string | null`,
`workspaceRoot : string | null`, `maxNumberOfProblems`). -/
structure CheckerSettings where
  enable : Bool
  executablePath : Option String
  workspaceRoot : Option String
  maxNumberOfProblems : Int
deriving Repr, DecidableEq

/-- Modelled from the spec: the `DrupalCheckMessage` interface (its source
file `src/server/src/message.ts` is not in the provided sources).  Per the
spec's CheckerMessage data model and the uses in `checker.ts`, a message
carries a 1-based `line` number and a human-readable `message` string. -/
structure DrupalCheckMessage where
  line : Int
  message : String
deriving Repr, DecidableEq

/-- A text document as the checker sees it: its URI and the current text
content (`document.getText()`). -/
structure TextDocument where
  uri : String
  text : String
deriving Repr, DecidableEq

/-- LSP diagnostic severity levels. -/
inductive DiagnosticSeverity where
  | error
  | warning
  | information
  | hint
deriving Repr, DecidableEq

/-- A diagnostic range as built by `Range.create(line, startCharacter, line,
endCharacter)`. -/
structure Range where
  startLine : Int
  startCharacter : Nat
  endLine : Int
  endCharacter : Nat
deriving Repr, DecidableEq

/-- An editor diagnostic as built by `Diagnostic.create(range, message,
severity, null, source)`; the fourth argument (`code`) is always `null` in
this code base. -/
structure Diagnostic where
  range : Range
  message : String
  severity : DiagnosticSeverity
  code : Option String
  source : String
deriving Repr, DecidableEq

/-- The JavaScript errors this code can raise: the `TypeError`s of property
access on `undefined`/`null` (and of calling `.map` on a non-array), the
`SR.InvalidJsonStringError` thrown by `parseData`, the formatted
`SR.CreateCheckerError` thrown by `DrupalCheck.create`, and the
`"Missing output"` error thrown by `check`. -/
inductive JsError where
  | typeError
  | invalidJson
  | createCheckerError
  | missingOutput
deriving Repr, DecidableEq

/-- JSON values as produced by `JSON.parse`, specialised to this pipeline:
arrays occur in the expected report shape only as message lists, so the
array constructor carries elements that are either `null` or values of the
declared `DrupalCheckMessage` shape. -/
inductive JsValue where
  | null
  | bool (b : Bool)
  | num (n : Int)
  | str (s : String)
  | msgArr (elems : List (Option DrupalCheckMessage))
  | obj (fields : List (String × JsValue))

/-- The platform facilities used by the checker, abstracted as oracles:
`Files.uriToFilePath`, the platform test `/^win/.test(process.platform)`,
the Windows drive-letter normalisation built from `path.parse`/`path.join`,
`extfs.realpathSync`, and `JSON.parse` (where `none` models a thrown parse
exception). -/
structure JsEnv where
  uriToFilePath : String → Option String
  isWin : Bool
  winNormalize : String → String
  realpath : String → String
  jsonParse : String → Option JsValue

/-- The observable result of the spawned external checker process: exit
status, captured stdout and captured stderr (with `encoding: "utf8"` both
are strings; an empty string also covers the `null` stdout of a spawn that
failed outright, both being falsy). -/
structure SpawnResult where
  status : Int
  stdout : String
  stderr : String
deriving Repr, DecidableEq

/-- Modelled from the spec: the whitespace classification of the `CharCode`
module (`src/server/src/base/common/charcode.ts` is not in the provided
sources).  Per the spec's Range Resolver: space, tab, and other classified
whitespace code points (vertical tab, form feed, no-break space). -/
def isWhiteSpace (c : Char) : Bool :=
  c = ' ' || c = '\t' || c.toNat = 11 || c.toNat = 12 || c.toNat = 160

/-- The whitespace-skipping loop of `createDiagnostic`, beginning at index
`i` (called with `i = 1` on the characters after the first): the loop body
assigns `startCharacter := i` before testing for a break, so when the scan
exhausts the line the final value is the last index `len - 1`, and when it
breaks it is the index of the first non-whitespace character. -/
def scanFrom : List Char → Nat → Nat
  | [], i => i - 1
  | c :: rest, i => if isWhiteSpace c then scanFrom rest (i + 1) else i

/-- The start-column computation of `createDiagnostic`: `startCharacter`
starts at 0 and the scan loop runs only when the first character is
whitespace (`charCodeAt(0)` of the empty string is `NaN`, which is not
whitespace). -/
def resolveStart (lineString : String) : Nat :=
  match lineString.data with
  | [] => 0
  | c :: rest => if isWhiteSpace c then scanFrom rest 1 else 0

/-- Splitting a character list at every newline, with JavaScript's
`split("\n")` semantics: the empty text yields one empty piece, and a
trailing newline yields a trailing empty piece. -/
def splitLinesList : List Char → List (List Char)
  | [] => [[]]
  | c :: rest =>
    match splitLinesList rest with
    | [] => []
    | l :: ls => if c = Char.ofNat 10 then [] :: l :: ls else (c :: l) :: ls

/-- `document.getText().split("\n")`. -/
def splitLines (text : String) : List String :=
  (splitLinesList text.data).map String.mk

/-- JavaScript array indexing `lines[line]` with a possibly negative or
out-of-range index: the result is `undefined` (`none`) outside the bounds. -/
def lineAt (lines : List String) (i : Int) : Option String :=
  if i < 0 then none else lines.get? i.toNat

/-- The fixed source tag passed to `Diagnostic.create`. -/
def drupalCheckerSource : String := "drupalchecker"

/-- The degenerate informational diagnostic returned for a `null` entry or
an empty message text: zero-length range at the origin, empty message,
severity Information. -/
def degenerateDiagnostic : Diagnostic :=
  { range := { startLine := 0, startCharacter := 0, endLine := 0, endCharacter := 0 }
    message := ""
    severity := DiagnosticSeverity.information
    code := none
    source := drupalCheckerSource }

/-- `createDiagnostic(document, entry)`.  The guard `entry == null ||
entry.message == ''` produces the degenerate diagnostic; otherwise the line
string is looked up at index `entry.line - 1` — with no bounds check, so an
out-of-range index makes `lineString` `undefined` and the subsequent
`lineString.length` access throws a `TypeError`. -/
def createDiagnostic (document : TextDocument) (entry : Option DrupalCheckMessage) :
    Except JsError Diagnostic :=
  match entry with
  | none => Except.ok degenerateDiagnostic
  | some e =>
    if e.message = "" then Except.ok degenerateDiagnostic
    else
      let lines := splitLines document.text
      let line : Int := e.line - 1
      match lineAt lines line with
      | none => Except.error JsError.typeError
      | some lineString =>
        let startCharacter := resolveStart lineString
        let endCharacter := lineString.length
        Except.ok
          { range :=
              { startLine := line, startCharacter := startCharacter
                endLine := line, endCharacter := endCharacter }
            message := e.message
            severity := DiagnosticSeverity.error
            code := none
            source := drupalCheckerSource }

example : resolveStart (String.mk [' ']) = 0 := by decide
example : resolveStart (String.mk [' ', ' ']) = 1 := by decide
example : resolveStart (String.mk [' ', ' ', 'a']) = 2 := by decide
example : resolveStart (String.mk ['a', ' ']) = 0 := by decide
example : resolveStart (String.mk []) = 0 := by decide

/-- The property name `files` read off the parsed report. -/
def filesKey : String := "files"

/-- The property name `messages` read off a per-file report entry. -/
def messagesKey : String := "messages"

/-- JavaScript property access `v.k` on a non-`undefined` value: access on
`null` throws a `TypeError`; on an object it yields the property value or
`undefined` (`none`); on primitives and arrays the properties this code
reads (`files`, `messages`) are absent, hence `undefined`. -/
def jsGetProp : JsValue → String → Except JsError (Option JsValue)
  | JsValue.null, _ => Except.error JsError.typeError
  | JsValue.obj fields, k => Except.ok (fields.lookup k)
  | _, _ => Except.ok none

/-- JavaScript indexing `f[k]` where `f` may be `undefined`: indexing
`undefined` throws a `TypeError`, otherwise as property access. -/
def jsIndexOpt : Option JsValue → String → Except JsError (Option JsValue)
  | none, _ => Except.error JsError.typeError
  | some v, k => jsGetProp v k

/-- JavaScript truthiness of a possibly-`undefined` value, as used by the
guard `if (!data.files[fileRealPath])`. -/
def jsTruthy : Option JsValue → Bool
  | none => false
  | some JsValue.null => false
  | some (JsValue.bool b) => b
  | some (JsValue.num n) => n ≠ 0
  | some (JsValue.str s) => s ≠ ""
  | some (JsValue.msgArr _) => true
  | some (JsValue.obj _) => true

/-- The destructuring `({ messages } = entry)` followed by
`messages.map(...)`: reading `messages` off `null`/`undefined` throws, and
mapping over anything that is not an array throws (`.map` is not a
function, or the property is `undefined`). -/
def jsMessagesOf : Option JsValue → Except JsError (List (Option DrupalCheckMessage))
  | none => Except.error JsError.typeError
  | some v =>
    match jsGetProp v messagesKey with
    | Except.error e => Except.error e
    | Except.ok (some (JsValue.msgArr elems)) => Except.ok elems
    | Except.ok _ => Except.error JsError.typeError

/-- `parseData(text)`: `JSON.parse` (abstracted: its result on the raw text
is passed in, `none` modelling a thrown parse exception) with the catch
rethrowing `SR.InvalidJsonStringError`.  The parsed value is returned
unchanged — no shape validation happens here. -/
def parseData (parsed : Option JsValue) : Except JsError JsValue :=
  match parsed with
  | none => Except.error JsError.invalidJson
  | some v => Except.ok v

/-- The `messages.map(message => diagnostics.push(createDiagnostic(...)))`
loop: one diagnostic per message, in order; a throw from `createDiagnostic`
aborts the whole loop and discards the diagnostics pushed so far. -/
def mapDiagnostics (document : TextDocument) :
    List (Option DrupalCheckMessage) → Except JsError (List Diagnostic)
  | [] => Except.ok []
  | m :: rest =>
    match createDiagnostic document m with
    | Except.error e => Except.error e
    | Except.ok d =>
      match mapDiagnostics document rest with
      | Except.error e => Except.error e
      | Except.ok ds => Except.ok (d :: ds)

/-- `processResults(filePath, document, results)`: parse the raw text, then
— when the file path is known — look up `data.files[fileRealPath]`, return
`[]` when that entry is falsy, and otherwise map every message of the entry
to a diagnostic.  When the file path is `undefined`, `messages` stays `[]`
and an empty diagnostic list is returned. -/
def processResults (env : JsEnv) (filePath : Option String) (document : TextDocument)
    (results : String) : Except JsError (List Diagnostic) :=
  match parseData (env.jsonParse results) with
  | Except.error e => Except.error e
  | Except.ok data =>
    match filePath with
    | none => Except.ok []
    | some fp =>
      let fileRealPath := env.realpath fp
      match jsGetProp data filesKey with
      | Except.error e => Except.error e
      | Except.ok files =>
        match jsIndexOpt files fileRealPath with
        | Except.error e => Except.error e
        | Except.ok entry =>
          if jsTruthy entry = false then Except.ok []
          else
            match jsMessagesOf entry with
            | Except.error e => Except.error e
            | Except.ok messages => mapDiagnostics document messages

/-- The file-path computation at the top of `check`:
`Files.uriToFilePath(document.uri)`, then — on Windows only — the
drive-letter normalisation. -/
def resolvePath (env : JsEnv) (document : TextDocument) : Option String :=
  match env.uriToFilePath document.uri with
  | none => none
  | some fp => some (if env.isWin then env.winNormalize fp else fp)

/-- Everything `check` observably does in one validation: whether the
external process was spawned, the value the returned promise resolves with
(`none` models resolving with `undefined`), and the error object that was
thrown inside the `try` and swallowed by the `catch`, if any. -/
structure CheckOutcome where
  spawned : Bool
  result : Option (List Diagnostic)
  internalError : Option JsError
deriving Repr, DecidableEq

/-- `DrupalCheck.check(document, settings)`.  `spawnSync` never throws —
failures land in its result object — so the `try` block throws only this
code's own `Error` objects: `"Missing output"` when `output.stdout` is
falsy, and whatever `processResults` throws.  None of those `Error`s carry
a `stdout` or `stderr` property, so both branches of the `catch` are
skipped and `check` resolves with `undefined`.  The exit status and stderr
of the spawned process are never consulted. -/
def check (env : JsEnv) (document : TextDocument) (settings : CheckerSettings)
    (spawn : SpawnResult) : CheckOutcome :=
  let filePath := resolvePath env document
  if document.text = "" then
    { spawned := false, result := some [], internalError := none }
  else if spawn.stdout = "" then
    { spawned := true, result := none, internalError := some JsError.missingOutput }
  else
    match processResults env filePath document spawn.stdout with
    | Except.ok diagnostics =>
      { spawned := true, result := some diagnostics, internalError := none }
    | Except.error e =>
      { spawned := true, result := none, internalError := some e }

/-- `DrupalCheck.create(executablePath)`: expand a leading home-directory
shorthand (`replace("~", homeDirectory)` replaces the first occurrence).
The settings type allows `executablePath` to be `null`, in which case
`null.startsWith` throws a `TypeError` that the catch wraps and rethrows as
the formatted `SR.CreateCheckerError`. -/
def create (homeDirectory : String) (executablePath : Option String) :
    Except JsError String :=
  match executablePath with
  | none => Except.error JsError.createCheckerError
  | some p =>
    Except.ok (if p.startsWith (String.mk ['~', '/']) then homeDirectory ++ p.drop 1 else p)

/-- Everything `validateSingle` observably does: the `diagnostics` value
passed to `connection.sendDiagnostics` (`none` models sending `undefined`),
the start/end validation notifications, whether a checker instance was
created and `check` called, whether the external process was spawned,
whether the cached settings entry for the URI was deleted, and whether the
returned promise rejects. -/
structure ValidationOutcome where
  published : Option (List Diagnostic)
  startNotified : Bool
  endNotified : Bool
  ranCheck : Bool
  spawned : Bool
  evictedSettings : Bool
  threw : Bool
deriving Repr, DecidableEq

/-- `validateSingle(document)` after settings resolution (the settings are
passed in resolved).  Enabled: notify start, create the checker — a
creation failure is rethrown by the `catch`, but only after the `finally`
notifies end and publishes the still-initial `[]` — otherwise run `check`
(which never rejects) and publish whatever it resolved with, `undefined`
included.  Disabled: publish `[]` and evict the cached settings for the
URI. -/
def validateSingle (env : JsEnv) (homeDirectory : String) (settings : CheckerSettings)
    (document : TextDocument) (spawn : SpawnResult) : ValidationOutcome :=
  if settings.enable then
    match create homeDirectory settings.executablePath with
    | Except.error _ =>
      { published := some [], startNotified := true, endNotified := true
        ranCheck := false, spawned := false, evictedSettings := false, threw := true }
    | Except.ok _ =>
      let out := check env document settings spawn
      { published := out.result, startNotified := true, endNotified := true
        ranCheck := true, spawned := out.spawned, evictedSettings := false, threw := false }
  else
    { published := some [], startNotified := false, endNotified := false
      ranCheck := false, spawned := false, evictedSettings := true, threw := false }

/-- One document of a `validateMany` batch: the document, its resolved
settings, and the abstracted spawn result for its validation. -/
structure BatchItem where
  settings : CheckerSettings
  document : TextDocument
  spawn : SpawnResult

/-- `validateMany(documents)`: validate sequentially, awaiting each
`validateSingle`; a rejected `validateSingle` promise aborts the loop, so
the remaining documents are not validated. -/
def validateMany (env : JsEnv) (homeDirectory : String) :
    List BatchItem → List ValidationOutcome
  | [] => []
  | item :: rest =>
    let o := validateSingle env homeDirectory item.settings item.document item.spawn
    if o.threw then [o] else o :: validateMany env homeDirectory rest

/-! Concrete fixtures used to evaluate the embedded pipeline on explicit
inputs.  The raw-output strings are opaque tokens; what matters is the
`JsValue` the `jsonParse` oracle associates with each of them. -/

def testPath : String := "/proj/f.php"

def testUri : String := "file:///proj/f.php"

def testHome : String := "/home/user"

def testExecPath : String := "/usr/local/bin/drupal-check"

def deprecatedText : String := "Deprecated call"

def errText : String := "tool crashed"

def rawGood : String := "out-good"

def rawNum : String := "out-num"

def rawMixed : String := "out-mixed"

def rawBad : String := "out-bad"

/-- A well-formed report message on line 2. -/
def goodMessage : DrupalCheckMessage := { line := 2, message := deprecatedText }

/-- A report message whose 1-based line number is beyond the two lines of
`testDoc`. -/
def badLineMessage : DrupalCheckMessage := { line := 5, message := deprecatedText }

/-- A report of the expected shape holding one message for `testPath`. -/
def goodReport : JsValue :=
  JsValue.obj [(filesKey, JsValue.obj
    [(testPath, JsValue.obj [(messagesKey, JsValue.msgArr [some goodMessage])])])]

/-- A report of the expected shape whose message list holds a well-formed
message followed by one with an out-of-range line number. -/
def mixedReport : JsValue :=
  JsValue.obj [(filesKey, JsValue.obj
    [(testPath, JsValue.obj
      [(messagesKey, JsValue.msgArr [some goodMessage, some badLineMessage])])])]

/-- The `JSON.parse` oracle of the test environment: `rawGood` and
`rawMixed` are well-formed JSON of the expected shape, `rawNum` is
well-formed JSON of the wrong shape (the number 5), and every other string
is malformed JSON. -/
def testJsonParse (s : String) : Option JsValue :=
  if s = rawGood then some goodReport
  else if s = rawNum then some (JsValue.num 5)
  else if s = rawMixed then some mixedReport
  else none

/-- A concrete platform environment: non-Windows, identity realpath. -/
def testEnv : JsEnv :=
  { uriToFilePath := fun u => if u = testUri then some testPath else none
    isWin := false
    winNormalize := fun s => s
    realpath := fun s => s
    jsonParse := testJsonParse }

/-- A two-line document (`"<?php"` and `"  echo 1;"`). -/
def testDoc : TextDocument := { uri := testUri, text := "<?php\n  echo 1;" }

/-- The same document with empty text. -/
def emptyDoc : TextDocument := { uri := testUri, text := "" }

def enabledSettings : CheckerSettings :=
  { enable := true, executablePath := some testExecPath
    workspaceRoot := none, maxNumberOfProblems := 1000 }

def disabledSettings : CheckerSettings :=
  { enable := false, executablePath := some testExecPath
    workspaceRoot := none, maxNumberOfProblems := 1000 }

/-- Enabled settings whose `executablePath` is `null`: the one way
`DrupalCheck.create` can fail. -/
def noExecSettings : CheckerSettings :=
  { enable := true, executablePath := none
    workspaceRoot := none, maxNumberOfProblems := 1000 }

/-- Normal exit with well-formed output. -/
def spawnGood : SpawnResult := { status := 0, stdout := rawGood, stderr := "" }

/-- Nonzero exit, empty stdout, nonempty stderr. -/
def spawnFail : SpawnResult := { status := 1, stdout := "", stderr := errText }

/-- Normal exit whose stdout is malformed JSON. -/
def spawnBadJson : SpawnResult := { status := 0, stdout := rawBad, stderr := "" }

/-- The diagnostic the good message maps to on `testDoc`: 0-based line 1,
start column 2 (first non-whitespace of `"  echo 1;"`), end column 9. -/
def goodDiagnostic : Diagnostic :=
  { range := { startLine := 1, startCharacter := 2, endLine := 1, endCharacter := 9 }
    message := deprecatedText
    severity := DiagnosticSeverity.error
    code := none
    source := drupalCheckerSource }

example : processResults testEnv (some testPath) testDoc rawGood =
    Except.ok [goodDiagnostic] := rfl
example : (check testEnv testDoc enabledSettings spawnGood).result =
    some [goodDiagnostic] := rfl

/-- Claim C5 (code evaluation at the failing input): `createDiagnostic` has
no bounds check on the resolved line index — a message whose 1-based line 5
falls outside the two-line `testDoc` makes `lines[4]` `undefined` and the
`lineString.length` access throw a `TypeError`; inside `processResults`
this aborts the whole message batch, including the preceding well-formed
message, rather than failing only the out-of-range one. -/
theorem createDiagnostic_out_of_range_crashes_batch :
    createDiagnostic testDoc (some badLineMessage) = Except.error JsError.typeError ∧
    processResults testEnv (some testPath) testDoc rawMixed =
      Except.error JsError.typeError := by
  exact ⟨rfl, rfl⟩

/-- Claim C6: `check` never consults the exit status or the stderr of the
spawned process — its outcome on a nonzero exit with stdout content is the
very outcome of a normal exit with the same stdout; and whenever stdout is
nonempty and processes into diagnostics, those diagnostics are the result,
whatever the exit status. -/
theorem check_ignores_exit_status (env : JsEnv) (doc : TextDocument)
    (s : CheckerSettings) (status : Int) (stdout stderr stderr2 : String)
    (ds : List Diagnostic) :
    check env doc s { status := status, stdout := stdout, stderr := stderr } =
      check env doc s { status := 0, stdout := stdout, stderr := stderr2 } ∧
    (doc.text ≠ "" → stdout ≠ "" →
      processResults env (resolvePath env doc) doc stdout = Except.ok ds →
      (check env doc s { status := status, stdout := stdout, stderr := stderr }).result =
        some ds) := by
  constructor
  · rfl
  · intro ht hs hp
    simp [check, ht, hs, hp]

/-- Witness for `check_ignores_exit_status` at exit status 2 with the
well-formed report on stdout. -/
theorem check_ignores_exit_status_witness :
    testDoc.text ≠ "" ∧ rawGood ≠ "" ∧
    processResults testEnv (resolvePath testEnv testDoc) testDoc rawGood =
      Except.ok [goodDiagnostic] ∧
    (check testEnv testDoc enabledSettings
      { status := 2, stdout := rawGood, stderr := errText }).result =
        some [goodDiagnostic] := by
  refine ⟨by decide, by decide, rfl, ?_⟩
  exact (check_ignores_exit_status testEnv testDoc enabledSettings 2 rawGood errText
    (String.mk []) [goodDiagnostic]).2 (by decide) (by decide) rfl

/-- Claim C7: on a document with empty text, `check` short-circuits to an
empty diagnostic list without spawning the external process, and
`validateSingle` (enabled, with a non-null executable path) publishes that
empty list. -/
theorem check_empty_text_no_spawn (env : JsEnv) (home : String)
    (s : CheckerSettings) (doc : TextDocument) (spawn : SpawnResult) (p : String)
    (ht : doc.text = "") (he : s.enable = true) (hp : s.executablePath = some p) :
    check env doc s spawn = { spawned := false, result := some [], internalError := none } ∧
    validateSingle env home s doc spawn =
      { published := some [], startNotified := true, endNotified := true
        ranCheck := true, spawned := false, evictedSettings := false, threw := false } := by
  refine ⟨by simp [check, ht], ?_⟩
  simp [validateSingle, he, hp, create, check, ht]

/-- Witness for `check_empty_text_no_spawn` on the empty document. -/
theorem check_empty_text_no_spawn_witness :
    emptyDoc.text = "" ∧ enabledSettings.enable = true ∧
    enabledSettings.executablePath = some testExecPath ∧
    check testEnv emptyDoc enabledSettings spawnGood =
      { spawned := false, result := some [], internalError := none } ∧
    validateSingle testEnv testHome enabledSettings emptyDoc spawnGood =
      { published := some [], startNotified := true, endNotified := true
        ranCheck := true, spawned := false, evictedSettings := false, threw := false } := by
  refine ⟨rfl, rfl, rfl, ?_⟩
  have h := check_empty_text_no_spawn testEnv testHome enabledSettings emptyDoc
    spawnGood testExecPath rfl rfl rfl
  exact ⟨h.1, h.2⟩

/-- Claim C8: with the checker disabled in the resolved settings,
`validateSingle` publishes an empty diagnostic set, evicts the cached
settings entry for the URI, and neither creates a checker nor runs it. -/
theorem validateSingle_disabled (env : JsEnv) (home : String)
    (s : CheckerSettings) (doc : TextDocument) (spawn : SpawnResult)
    (h : s.enable = false) :
    validateSingle env home s doc spawn =
      { published := some [], startNotified := false, endNotified := false
        ranCheck := false, spawned := false, evictedSettings := true, threw := false } := by
  simp [validateSingle, h]

/-- Witness for `validateSingle_disabled` on the disabled settings. -/
theorem validateSingle_disabled_witness :
    disabledSettings.enable = false ∧
    validateSingle testEnv testHome disabledSettings testDoc spawnGood =
      { published := some [], startNotified := false, endNotified := false
        ranCheck := false, spawned := false, evictedSettings := true, threw := false } :=
  ⟨rfl, validateSingle_disabled testEnv testHome disabledSettings testDoc spawnGood rfl⟩

/-- Claim C9: a `null` entry or an entry with empty message text maps to
the degenerate informational diagnostic (zero-length range at the origin,
severity Information, source `drupalchecker`); every other entry that maps
to a diagnostic gets severity Error and the same fixed source tag. -/
theorem createDiagnostic_sentinel_and_severity (doc : TextDocument)
    (e : DrupalCheckMessage) (d : Diagnostic) :
    createDiagnostic doc none =
      Except.ok
        { range := { startLine := 0, startCharacter := 0, endLine := 0, endCharacter := 0 }
          message := "", severity := DiagnosticSeverity.information
          code := none, source := drupalCheckerSource } ∧
    (e.message = "" →
      createDiagnostic doc (some e) =
        Except.ok
          { range := { startLine := 0, startCharacter := 0, endLine := 0, endCharacter := 0 }
            message := "", severity := DiagnosticSeverity.information
            code := none, source := drupalCheckerSource }) ∧
    (e.message ≠ "" → createDiagnostic doc (some e) = Except.ok d →
      d.severity = DiagnosticSeverity.error ∧ d.source = drupalCheckerSource ∧
      d.message = e.message) := by
  refine ⟨rfl, ?_, ?_⟩
  · intro h
    simp [createDiagnostic, h, degenerateDiagnostic]
  · intro h hok
    simp only [createDiagnostic, h, if_neg] at hok
    cases hl : lineAt (splitLines doc.text) (e.line - 1) with
    | none => rw [hl] at hok; cases hok
    | some lineString =>
      rw [hl] at hok
      cases hok
      exact ⟨rfl, rfl, rfl⟩

/-- Witness for `createDiagnostic_sentinel_and_severity` at an
empty-message entry and at the good message on the two-line document. -/
theorem createDiagnostic_sentinel_and_severity_witness :
    ({ line := 3, message := "" } : DrupalCheckMessage).message = "" ∧
    goodMessage.message ≠ "" ∧
    createDiagnostic testDoc (some goodMessage) = Except.ok goodDiagnostic ∧
    goodDiagnostic.severity = DiagnosticSeverity.error ∧
    goodDiagnostic.source = drupalCheckerSource ∧
    createDiagnostic testDoc (some { line := 3, message := "" }) =
      Except.ok
        { range := { startLine := 0, startCharacter := 0, endLine := 0, endCharacter := 0 }
          message := "", severity := DiagnosticSeverity.information
          code := none, source := drupalCheckerSource } := by
  refine ⟨rfl, by decide, rfl, ?_, ?_, ?_⟩
  · exact ((createDiagnostic_sentinel_and_severity testDoc goodMessage
      goodDiagnostic).2.2 (by decide) rfl).1
  · exact ((createDiagnostic_sentinel_and_severity testDoc goodMessage
      goodDiagnostic).2.2 (by decide) rfl).2.1
  · exact (createDiagnostic_sentinel_and_severity testDoc
      { line := 3, message := "" } goodDiagnostic).2.1 rfl

/-- Claim C3 (counterexample): on a nonzero exit with empty stdout and
nonempty stderr, `check` does not reject — it swallows its own internal
`"Missing output"` error (which never carries the stderr text) and resolves
with `undefined` — and `validateSingle` then publishes `undefined` rather
than an empty diagnostic array. -/
theorem check_stderr_counterexample :
    (validateSingle testEnv testHome enabledSettings testDoc spawnFail).published ≠
      some [] ∧
    (check testEnv testDoc enabledSettings spawnFail).internalError =
      some JsError.missingOutput ∧
    (validateSingle testEnv testHome enabledSettings testDoc spawnFail).threw = false := by
  refine ⟨?_, rfl, rfl⟩
  intro h
  cases h

/-- Claim C3 (amended): whenever the process produces no stdout —
regardless of exit status and of stderr — `check` throws an internal
`"Missing output"` error, its own catch swallows it (the thrown `Error`
carries neither stdout nor stderr, so no error surfaces), and `check`
resolves with `undefined`; `validateSingle` then publishes `undefined`
(`none`), not an empty array, and does not reject. -/
theorem check_missing_output (env : JsEnv) (home : String) (s : CheckerSettings)
    (doc : TextDocument) (spawn : SpawnResult) (p : String)
    (ht : doc.text ≠ "") (hs : spawn.stdout = "")
    (he : s.enable = true) (hp : s.executablePath = some p) :
    check env doc s spawn =
      { spawned := true, result := none, internalError := some JsError.missingOutput } ∧
    (validateSingle env home s doc spawn).published = none ∧
    (validateSingle env home s doc spawn).threw = false := by
  have hc : check env doc s spawn =
      { spawned := true, result := none, internalError := some JsError.missingOutput } := by
    simp [check, ht, hs]
  refine ⟨hc, ?_, ?_⟩
  · simp [validateSingle, he, hp, create, hc]
  · simp [validateSingle, he, hp, create]

/-- Witness for `check_missing_output` on the nonzero-exit, empty-stdout,
nonempty-stderr spawn result. -/
theorem check_missing_output_witness :
    testDoc.text ≠ "" ∧ spawnFail.stdout = "" ∧ spawnFail.stderr ≠ "" ∧
    check testEnv testDoc enabledSettings spawnFail =
      { spawned := true, result := none, internalError := some JsError.missingOutput } ∧
    (validateSingle testEnv testHome enabledSettings testDoc spawnFail).published =
      none := by
  refine ⟨by decide, rfl, by decide, ?_, ?_⟩
  · exact (check_missing_output testEnv testHome enabledSettings testDoc spawnFail
      testExecPath (by decide) rfl rfl rfl).1
  · exact (check_missing_output testEnv testHome enabledSettings testDoc spawnFail
      testExecPath (by decide) rfl rfl rfl).2.1

/-- The promise returned by `validateSingle` rejects exactly when the
checker is enabled and its executable path is `null` (the only way
`DrupalCheck.create` throws; `check` itself never rejects). -/
theorem validateSingle_threw (env : JsEnv) (home : String) (s : CheckerSettings)
    (doc : TextDocument) (spawn : SpawnResult) :
    (validateSingle env home s doc spawn).threw =
      (s.enable && s.executablePath.isNone) := by
  cases he : s.enable with
  | false => simp [validateSingle, he]
  | true =>
    cases hp : s.executablePath with
    | none => simp [validateSingle, he, hp, create]
    | some p => simp [validateSingle, he, hp, create]

/-- Claim C1 (counterexample): a validation cycle whose output-parsing step
fails (malformed JSON on stdout) publishes `undefined` — not an empty
diagnostic set — for the document's URI. -/
theorem validateSingle_failure_counterexample :
    (validateSingle testEnv testHome enabledSettings testDoc spawnBadJson).published ≠
      some [] ∧
    (check testEnv testDoc enabledSettings spawnBadJson).internalError =
      some JsError.invalidJson := by
  refine ⟨?_, rfl⟩
  intro h
  cases h

/-- Claim C1 (amended): (1) a checker-creation failure (null executable
path) publishes the still-initial empty list but rethrows, rejecting
`validateSingle`; (2) a failure inside `check` (process execution or output
parsing) is swallowed there, and `validateSingle` publishes `undefined` —
not an empty list — without rejecting; (3) consequently a `validateMany`
batch is validated in full whenever no item has an enabled null executable
path; (4) an item with an enabled null executable path aborts the batch:
the remaining documents are not validated. -/
theorem validateSingle_failure_publish :
    (∀ (env : JsEnv) (home : String) (s : CheckerSettings) (doc : TextDocument)
        (spawn : SpawnResult),
      s.enable = true → s.executablePath = none →
        validateSingle env home s doc spawn =
          { published := some [], startNotified := true, endNotified := true
            ranCheck := false, spawned := false, evictedSettings := false
            threw := true }) ∧
    (∀ (env : JsEnv) (home : String) (s : CheckerSettings) (doc : TextDocument)
        (spawn : SpawnResult) (p : String),
      s.enable = true → s.executablePath = some p →
        (check env doc s spawn).result = none →
        (validateSingle env home s doc spawn).published = none ∧
        (validateSingle env home s doc spawn).threw = false) ∧
    (∀ (env : JsEnv) (home : String) (items : List BatchItem),
      (∀ it ∈ items, it.settings.enable = false ∨ it.settings.executablePath ≠ none) →
        (validateMany env home items).length = items.length) ∧
    (∀ (env : JsEnv) (home : String) (it : BatchItem) (rest : List BatchItem),
      it.settings.enable = true → it.settings.executablePath = none →
        validateMany env home (it :: rest) =
          [validateSingle env home it.settings it.document it.spawn]) := by
  refine ⟨?_, ?_, ?_, ?_⟩
  · intro env home s doc spawn he hp
    simp [validateSingle, he, hp, create]
  · intro env home s doc spawn p he hp hr
    constructor
    · simp [validateSingle, he, hp, create, hr]
    · simp [validateSingle, he, hp, create]
  · intro env home items hitems
    induction items with
    | nil => rfl
    | cons it rest ih =>
      have hthrew : (validateSingle env home it.settings it.document it.spawn).threw = false := by
        rw [validateSingle_threw]
        rcases hitems it (List.mem_cons_self it rest) with h | h
        · simp [h]
        · cases hp : it.settings.executablePath with
          | none => exact absurd hp h
          | some p => simp [hp]
      have htail := ih (fun x hx => hitems x (List.mem_cons_of_mem it hx))
      simp [validateMany, hthrew, htail]
  · intro env home it rest he hp
    have hthrew : (validateSingle env home it.settings it.document it.spawn).threw = true := by
      rw [validateSingle_threw, he, hp]
      rfl
    simp [validateMany, hthrew]

/-- Witness for `validateSingle_failure_publish`: a creation failure
publishes the empty list and rejects; a parse failure publishes
`undefined`; a batch without enabled-null-path items is validated in full;
a batch headed by an enabled-null-path item is cut short. -/
theorem validateSingle_failure_publish_witness :
    validateSingle testEnv testHome noExecSettings testDoc spawnGood =
      { published := some [], startNotified := true, endNotified := true
        ranCheck := false, spawned := false, evictedSettings := false, threw := true } ∧
    (validateSingle testEnv testHome enabledSettings testDoc spawnBadJson).published =
      none ∧
    (validateMany testEnv testHome
      [{ settings := enabledSettings, document := testDoc, spawn := spawnBadJson },
       { settings := disabledSettings, document := testDoc, spawn := spawnGood }]).length = 2 ∧
    validateMany testEnv testHome
      [{ settings := noExecSettings, document := testDoc, spawn := spawnGood },
       { settings := enabledSettings, document := testDoc, spawn := spawnGood }] =
      [validateSingle testEnv testHome noExecSettings testDoc spawnGood] := by
  refine ⟨?_, ?_, ?_, ?_⟩
  · exact validateSingle_failure_publish.1 testEnv testHome noExecSettings testDoc
      spawnGood rfl rfl
  · exact (validateSingle_failure_publish.2.1 testEnv testHome enabledSettings testDoc
      spawnBadJson testExecPath rfl rfl rfl).1
  · exact validateSingle_failure_publish.2.2.1 testEnv testHome
      [{ settings := enabledSettings, document := testDoc, spawn := spawnBadJson },
       { settings := disabledSettings, document := testDoc, spawn := spawnGood }]
      (by intro it hit; fin_cases hit <;> simp [enabledSettings, disabledSettings])
  · exact validateSingle_failure_publish.2.2.2 testEnv testHome
      { settings := noExecSettings, document := testDoc, spawn := spawnGood }
      [{ settings := enabledSettings, document := testDoc, spawn := spawnGood }]
      rfl rfl

/-- The scan loop starting at index `i`: either everything remaining is
whitespace and the loop runs off the end, leaving `startCharacter` at the
last index it visited, or it breaks at the first non-whitespace character,
all earlier characters being whitespace. -/
theorem scanFrom_spec (l : List Char) :
    ∀ i : Nat,
      ((∀ c ∈ l, isWhiteSpace c = true) ∧ scanFrom l i = i + l.length - 1) ∨
      (∃ k, ∃ hk : k < l.length, scanFrom l i = i + k ∧
        isWhiteSpace (l.get ⟨k, hk⟩) = false ∧
        ∀ j, ∀ hj : j < l.length, j < k → isWhiteSpace (l.get ⟨j, hj⟩) = true) := by
  induction l with
  | nil =>
    intro i
    left
    refine ⟨?_, ?_⟩
    · intro c hc
      cases hc
    · simp [scanFrom]
  | cons c rest ih =>
    intro i
    cases hws : isWhiteSpace c with
    | false =>
      right
      refine ⟨0, by simp, by simp [scanFrom, hws], hws, ?_⟩
      intro j hj hj0
      exact absurd hj0 (Nat.not_lt_zero j)
    | true =>
      rcases ih (i + 1) with ⟨hall, hval⟩ | ⟨k, hk, hval, hnw, hpre⟩
      · left
        refine ⟨?_, ?_⟩
        · intro x hx
          rcases List.mem_cons.mp hx with h | h
          · rw [h]; exact hws
          · exact hall x h
        · rw [show scanFrom (c :: rest) i = scanFrom rest (i + 1) from by
            simp [scanFrom, hws]]
          rw [hval]
          simp only [List.length_cons]
          omega
      · right
        refine ⟨k + 1, by simpa using Nat.succ_lt_succ hk, ?_, ?_, ?_⟩
        · rw [show scanFrom (c :: rest) i = scanFrom rest (i + 1) from by
            simp [scanFrom, hws]]
          rw [hval]
          omega
        · simpa using hnw
        · intro j hj hjk
          cases j with
          | zero => simpa using hws
          | succ j' =>
            have hj' : j' < rest.length := by
              simp [List.length_cons] at hj
              omega
            have := hpre j' hj' (by omega)
            simpa using this

/-- Claim C2 (counterexample): on the single-space line the scan returns 0,
which is neither the line length 1 nor the index of a non-whitespace
character — the character at index 0 is the space itself. -/
theorem resolveStart_counterexample :
    ¬ (resolveStart (String.mk [' ']) = (String.mk [' ']).length ∨
       isWhiteSpace ((String.mk [' ']).data.getD (resolveStart (String.mk [' '])) 'x') =
         false) := by
  decide

/-- Claim C2 (amended): for every non-empty line, the start-column scan of
`createDiagnostic` returns an index `i` that is always strictly less than
the line length; either the character at `i` is non-whitespace and all
characters before it are whitespace, or the line is entirely whitespace and
`i` is `length - 1` (the last index, not the length). -/
theorem resolveStart_firstNonWhite (s : String) (hne : s.data ≠ []) :
    (resolveStart s < s.data.length) ∧
    (((∀ c ∈ s.data, isWhiteSpace c = true) ∧ resolveStart s = s.data.length - 1) ∨
     (∃ hk : resolveStart s < s.data.length,
        isWhiteSpace (s.data.get ⟨resolveStart s, hk⟩) = false ∧
        ∀ j, ∀ hj : j < s.data.length, j < resolveStart s →
          isWhiteSpace (s.data.get ⟨j, hj⟩) = true)) := by
  obtain ⟨l⟩ := s
  cases l with
  | nil => exact absurd rfl hne
  | cons c rest =>
    cases hws : isWhiteSpace c with
    | false =>
      have hr : resolveStart (String.mk (c :: rest)) = 0 := by
        simp [resolveStart, hws]
      have hlt : resolveStart (String.mk (c :: rest)) < (c :: rest).length := by
        rw [hr]; simp
      refine ⟨hlt, Or.inr ⟨hlt, ?_, ?_⟩⟩
      · rw [show ((String.mk (c :: rest)).data.get ⟨resolveStart (String.mk (c :: rest)), hlt⟩) =
            (c :: rest).get ⟨0, by simp⟩ from by congr 1 <;> simp [hr]]
        simpa using hws
      · intro j hj hj0
        rw [hr] at hj0
        exact absurd hj0 (Nat.not_lt_zero j)
    | true =>
      have hr : resolveStart (String.mk (c :: rest)) = scanFrom rest 1 := by
        simp [resolveStart, hws]
      rcases scanFrom_spec rest 1 with ⟨hall, hval⟩ | ⟨k, hk, hval, hnw, hpre⟩
      · have hr' : resolveStart (String.mk (c :: rest)) = rest.length := by
          rw [hr, hval]; omega
        have hlt : resolveStart (String.mk (c :: rest)) < (c :: rest).length := by
          rw [hr']; simp
        refine ⟨hlt, Or.inl ⟨?_, ?_⟩⟩
        · intro x hx
          rcases List.mem_cons.mp hx with h | h
          · rw [h]; exact hws
          · exact hall x h
        · rw [hr']; simp
      · have hr' : resolveStart (String.mk (c :: rest)) = k + 1 := by
          rw [hr, hval]; omega
        have hlt : resolveStart (String.mk (c :: rest)) < (c :: rest).length := by
          rw [hr']; simpa using Nat.succ_lt_succ hk
        refine ⟨hlt, Or.inr ⟨hlt, ?_, ?_⟩⟩
        · rw [show ((String.mk (c :: rest)).data.get ⟨resolveStart (String.mk (c :: rest)), hlt⟩) =
              (c :: rest).get ⟨k + 1, by simpa using Nat.succ_lt_succ hk⟩ from by
            congr 1 <;> simp [hr']]
          simpa using hnw
        · intro j hj hjk
          rw [hr'] at hjk
          cases j with
          | zero => simpa using hws
          | succ j' =>
            have hj' : j' < rest.length := by
              simp at hj
              omega
            have := hpre j' hj' (by omega)
            simpa using this

/-- Witness for `resolveStart_firstNonWhite` on the line made of a space
followed by a letter: the scan returns 1, the first non-whitespace index. -/
theorem resolveStart_firstNonWhite_witness :
    (String.mk [' ', 'a']).data ≠ [] ∧
    ((resolveStart (String.mk [' ', 'a']) < (String.mk [' ', 'a']).data.length) ∧
     (((∀ c ∈ (String.mk [' ', 'a']).data, isWhiteSpace c = true) ∧
        resolveStart (String.mk [' ', 'a']) = (String.mk [' ', 'a']).data.length - 1) ∨
      (∃ hk : resolveStart (String.mk [' ', 'a']) < (String.mk [' ', 'a']).data.length,
        isWhiteSpace ((String.mk [' ', 'a']).data.get
          ⟨resolveStart (String.mk [' ', 'a']), hk⟩) = false ∧
        ∀ j, ∀ hj : j < (String.mk [' ', 'a']).data.length,
          j < resolveStart (String.mk [' ', 'a']) →
            isWhiteSpace ((String.mk [' ', 'a']).data.get ⟨j, hj⟩) = true))) :=
  ⟨by decide, resolveStart_firstNonWhite (String.mk [' ', 'a']) (by decide)⟩

/-- A failed property access throws only a `TypeError`. -/
theorem jsGetProp_error_typeError (v : JsValue) (k : String) (e : JsError)
    (h : jsGetProp v k = Except.error e) : e = JsError.typeError := by
  cases v <;> simp [jsGetProp] at h
  exact h.symm

/-- A failed indexing throws only a `TypeError`. -/
theorem jsIndexOpt_error_typeError (f : Option JsValue) (k : String) (e : JsError)
    (h : jsIndexOpt f k = Except.error e) : e = JsError.typeError := by
  cases f with
  | none =>
    simp [jsIndexOpt] at h
    exact h.symm
  | some v => exact jsGetProp_error_typeError v k e h

/-- A failed `messages` extraction throws only a `TypeError`. -/
theorem jsMessagesOf_error_typeError (entry : Option JsValue) (e : JsError)
    (h : jsMessagesOf entry = Except.error e) : e = JsError.typeError := by
  cases entry with
  | none =>
    simp [jsMessagesOf] at h
    exact h.symm
  | some v =>
    rw [jsMessagesOf] at h
    cases hg : jsGetProp v messagesKey with
    | error e' =>
      rw [hg] at h
      injection h with h'
      rw [← h']
      exact jsGetProp_error_typeError v messagesKey e' hg
    | ok f =>
      rw [hg] at h
      cases f with
      | none =>
        injection h with h'
        exact h'.symm
      | some w =>
        cases w <;> first
          | (injection h with h'; exact h'.symm)
          | cases h

/-- A failing `createDiagnostic` throws only a `TypeError` (the missing
bounds check on the line index). -/
theorem createDiagnostic_error_typeError (doc : TextDocument)
    (m : Option DrupalCheckMessage) (e : JsError)
    (h : createDiagnostic doc m = Except.error e) : e = JsError.typeError := by
  cases m with
  | none => simp [createDiagnostic] at h
  | some msg =>
    by_cases hm : msg.message = ""
    · simp [createDiagnostic, hm] at h
    · simp only [createDiagnostic, hm, if_neg] at h
      cases hl : lineAt (splitLines doc.text) (msg.line - 1) with
      | none =>
        rw [hl] at h
        injection h with h'
        exact h'.symm
      | some lineString =>
        rw [hl] at h
        cases h

/-- A failing diagnostic-mapping loop throws only a `TypeError`. -/
theorem mapDiagnostics_error_typeError (doc : TextDocument) :
    ∀ (msgs : List (Option DrupalCheckMessage)) (e : JsError),
      mapDiagnostics doc msgs = Except.error e → e = JsError.typeError := by
  intro msgs
  induction msgs with
  | nil =>
    intro e h
    simp [mapDiagnostics] at h
  | cons m rest ih =>
    intro e h
    rw [mapDiagnostics] at h
    cases hc : createDiagnostic doc m with
    | error e' =>
      rw [hc] at h
      injection h with h'
      rw [← h']
      exact createDiagnostic_error_typeError doc m e' hc
    | ok d =>
      rw [hc] at h
      cases hr : mapDiagnostics doc rest with
      | error e' =>
        rw [hr] at h
        injection h with h'
        rw [← h']
        exact ih e' hr
      | ok ds =>
        rw [hr] at h
        cases h

/-- Claim C4 (counterexample): well-formed JSON of the wrong shape — the
JSON number 5 — is not rejected by the parser: `parseData` returns it
unchanged, and `processResults` then fails with a `TypeError` (indexing the
`undefined` value of `(5).files`), not with the invalid-JSON error. -/
theorem parseData_shape_counterexample :
    parseData (some (JsValue.num 5)) = Except.ok (JsValue.num 5) ∧
    processResults testEnv (some testPath) testDoc rawNum =
      Except.error JsError.typeError ∧
    processResults testEnv (some testPath) testDoc rawNum ≠
      Except.error JsError.invalidJson := by
  refine ⟨rfl, rfl, ?_⟩
  intro h
  cases h

/-- Claim C4 (amended): `processResults` fails with the invalid-JSON error
exactly for input that is not well-formed JSON (`JSON.parse` throws); on
well-formed JSON the parsed value is passed along without any shape
validation, and no later step of the pipeline can raise the invalid-JSON
error — a shape mismatch surfaces as a `TypeError` or is silently coerced
into an empty result. -/
theorem processResults_invalidJson_iff (env : JsEnv) (fp : Option String)
    (doc : TextDocument) (raw : String) :
    (env.jsonParse raw = none →
      processResults env fp doc raw = Except.error JsError.invalidJson) ∧
    (∀ v, env.jsonParse raw = some v →
      processResults env fp doc raw ≠ Except.error JsError.invalidJson) := by
  constructor
  · intro h
    simp [processResults, parseData, h]
  · intro v hv
    cases fp with
    | none =>
      have hval : processResults env none doc raw = Except.ok [] := by
        simp [processResults, hv, parseData]
      rw [hval]
      intro hc
      cases hc
    | some fp' =>
      cases hgf : jsGetProp v filesKey with
      | error e =>
        have hval : processResults env (some fp') doc raw = Except.error e := by
          simp [processResults, hv, parseData, hgf]
        rw [hval]
        intro hc
        injection hc with h'
        have := jsGetProp_error_typeError v filesKey e hgf
        rw [this] at h'
        cases h'
      | ok files =>
        cases hidx : jsIndexOpt files (env.realpath fp') with
        | error e =>
          have hval : processResults env (some fp') doc raw = Except.error e := by
            simp [processResults, hv, parseData, hgf, hidx]
          rw [hval]
          intro hc
          injection hc with h'
          have := jsIndexOpt_error_typeError files (env.realpath fp') e hidx
          rw [this] at h'
          cases h'
        | ok entry =>
          by_cases htr : jsTruthy entry = false
          · have hval : processResults env (some fp') doc raw = Except.ok [] := by
              simp [processResults, hv, parseData, hgf, hidx, htr]
            rw [hval]
            intro hc
            cases hc
          · cases hmsg : jsMessagesOf entry with
            | error e =>
              have hval : processResults env (some fp') doc raw = Except.error e := by
                simp [processResults, hv, parseData, hgf, hidx, htr, hmsg]
              rw [hval]
              intro hc
              injection hc with h'
              have := jsMessagesOf_error_typeError entry e hmsg
              rw [this] at h'
              cases h'
            | ok msgs =>
              have hval : processResults env (some fp') doc raw =
                  mapDiagnostics doc msgs := by
                simp [processResults, hv, parseData, hgf, hidx, htr, hmsg]
              rw [hval]
              intro hc
              have := mapDiagnostics_error_typeError doc msgs JsError.invalidJson hc
              cases this

/-- Witness for `processResults_invalidJson_iff`: malformed JSON yields the
invalid-JSON error; the well-formed report never does. -/
theorem processResults_invalidJson_iff_witness :
    testEnv.jsonParse rawBad = none ∧
    processResults testEnv (some testPath) testDoc rawBad =
      Except.error JsError.invalidJson ∧
    testEnv.jsonParse rawGood = some goodReport ∧
    processResults testEnv (some testPath) testDoc rawGood ≠
      Except.error JsError.invalidJson := by
  refine ⟨rfl, ?_, rfl, ?_⟩
  · exact (processResults_invalidJson_iff testEnv (some testPath) testDoc rawBad).1 rfl
  · exact (processResults_invalidJson_iff testEnv (some testPath) testDoc rawGood).2
      goodReport rfl

/-- A successful diagnostic-mapping loop yields exactly one diagnostic per
message, in the same order. -/
theorem mapDiagnostics_ok_spec (doc : TextDocument) :
    ∀ (msgs : List (Option DrupalCheckMessage)) (ds : List Diagnostic),
      mapDiagnostics doc msgs = Except.ok ds →
      ds.length = msgs.length ∧
      ∀ j, ∀ hj : j < ds.length, ∀ hj2 : j < msgs.length,
        Except.ok (ds.get ⟨j, hj⟩) = createDiagnostic doc (msgs.get ⟨j, hj2⟩) := by
  intro msgs
  induction msgs with
  | nil =>
    intro ds h
    simp [mapDiagnostics] at h
    subst h
    exact ⟨rfl, fun j hj _ => absurd hj (by simp)⟩
  | cons m rest ih =>
    intro ds h
    rw [mapDiagnostics] at h
    cases hc : createDiagnostic doc m with
    | error e =>
      rw [hc] at h
      cases h
    | ok d =>
      rw [hc] at h
      cases hr : mapDiagnostics doc rest with
      | error e =>
        rw [hr] at h
        cases h
      | ok ds' =>
        rw [hr] at h
        injection h with h'
        subst h'
        obtain ⟨hlen, hidx⟩ := ih ds' hr
        refine ⟨by simp [hlen], ?_⟩
        intro j hj hj2
        cases j with
        | zero => simpa using hc.symm
        | succ j' =>
          have hj' : j' < ds'.length := by
            simp at hj
            omega
          have hj2' : j' < rest.length := by
            simp at hj2
            omega
          simpa using hidx j' hj' hj2'

/-- Claim C10: when the parsed report holds an entry for the document's
real path, a successful `processResults` returns exactly one diagnostic per
message of that entry, in order; and the result of `check` does not depend
on `maxNumberOfProblems` at all — the cap is never read. -/
theorem processResults_one_per_message (env : JsEnv) (fp : String)
    (doc : TextDocument) (raw : String)
    (dataFields fileFields entryFields : List (String × JsValue))
    (msgs : List (Option DrupalCheckMessage)) (ds : List Diagnostic)
    (s : CheckerSettings) (spawn : SpawnResult)
    (h1 : env.jsonParse raw = some (JsValue.obj dataFields))
    (h2 : dataFields.lookup filesKey = some (JsValue.obj fileFields))
    (h3 : fileFields.lookup (env.realpath fp) = some (JsValue.obj entryFields))
    (h4 : entryFields.lookup messagesKey = some (JsValue.msgArr msgs))
    (h5 : mapDiagnostics doc msgs = Except.ok ds) :
    processResults env (some fp) doc raw = Except.ok ds ∧
    ds.length = msgs.length ∧
    (∀ j, ∀ hj : j < ds.length, ∀ hj2 : j < msgs.length,
      Except.ok (ds.get ⟨j, hj⟩) = createDiagnostic doc (msgs.get ⟨j, hj2⟩)) ∧
    (∀ n : Int, check env doc { s with maxNumberOfProblems := n } spawn =
      check env doc s spawn) := by
  refine ⟨?_, (mapDiagnostics_ok_spec doc msgs ds h5).1,
    (mapDiagnostics_ok_spec doc msgs ds h5).2, fun n => rfl⟩
  simp [processResults, parseData, h1, jsGetProp, jsIndexOpt, h2, h3, jsTruthy,
    jsMessagesOf, h4, h5]

/-- Witness for `processResults_one_per_message` on the one-message
report. -/
theorem processResults_one_per_message_witness :
    processResults testEnv (some testPath) testDoc rawGood =
      Except.ok [goodDiagnostic] ∧
    ([goodDiagnostic] : List Diagnostic).length =
      ([some goodMessage] : List (Option DrupalCheckMessage)).length ∧
    (∀ n : Int, check testEnv testDoc
      { enabledSettings with maxNumberOfProblems := n } spawnGood =
        check testEnv testDoc enabledSettings spawnGood) := by
  have h := processResults_one_per_message testEnv testPath testDoc rawGood
    [(filesKey, JsValue.obj
      [(testPath, JsValue.obj [(messagesKey, JsValue.msgArr [some goodMessage])])])]
    [(testPath, JsValue.obj [(messagesKey, JsValue.msgArr [some goodMessage])])]
    [(messagesKey, JsValue.msgArr [some goodMessage])]
    [some goodMessage] [goodDiagnostic] enabledSettings spawnGood
    rfl rfl rfl rfl rfl
  exact ⟨h.1, h.2.1, h.2.2.2⟩
